import Mathlib

/-!
# Verification of the introcs turtle-graphics drawing coordinator

A shallow embedding of the turtle-graphics coordinator of the `introcs`
package (files `introcs/turtle/window.py`, `introcs/turtle/_drawtool.py`,
`introcs/turtle/_context.py`, `introcs/turtle/turtle.py`,
`introcs/turtle/pentool.py`), together with theorems settling the frozen
claims about it.

Conventions of the embedding:
* Python floats are modelled as rationals (`ℚ`); the concrete scenarios in
  the claims only involve values at which Python float arithmetic is exact.
* Euclidean lengths (`Vector2.length()`, a square root) are passed as an
  explicit parameter `len`, constrained in theorem hypotheses by
  `len ^ 2 = dx ^ 2 + dy ^ 2` where the claim needs the connection.
* Python exceptions are modelled with `Except PyErr`.
* Tkinter object handles (canvas items, images, tool keys) are opaque
  naturals.
-/

namespace IntrocsTurtle

/-- Tool identifier keys (`_tkkey` strings in the source, opaque here). -/
abbrev Key := ℕ

/-- Tkinter image handles (`ImageTk` objects in the source, opaque here). -/
abbrev Icon := ℕ

/-- The Python exceptions relevant to the claims.  `attachmentError` is the
`AttachmentError` class of `window.py`; the rest are builtin Python errors. -/
inductive PyErr where
  | attachmentError
  | zeroDivisionError
  | nameError
  | keyError
  deriving DecidableEq, Repr

/-- A point of Turtle space (`introcs.geom.Point2`, numeric fields only). -/
structure Point2 where
  x : ℚ
  y : ℚ
  deriving DecidableEq, Repr

/-- A toolkit drawing primitive submitted to the canvas
(`create_line`/`create_arc`/… in the source).  `handle` is the canvas item
identifier the toolkit returns on success; `fails` records whether this
particular toolkit call throws when executed (category (c) faults of the
spec).  The geometric payload is irrelevant to the claims and is omitted. -/
structure Prim where
  handle : ℕ
  fails : Bool
  deriving DecidableEq, Repr

/-! ## The incremental line/arc animation (`_drawtool.py`)

`_DrawTool._follow_line` (lines 519-572) subdivides a segment and issues one
`Window._draw_line` push per step.  One step of the animation is recorded
as a `LineStep`: the drawn sub-segment, the `rollback` count carried in the
keyword arguments of the push, and the resolved `block` flag (the `block`
keyword of the push, defaulted to `True` by `Window._queue_command` when
absent). -/

structure LineStep where
  px : ℚ
  py : ℚ
  qx : ℚ
  qy : ℚ
  rollback : ℕ
  block : Bool
  deriving DecidableEq, Repr

/-- The per-step length of `_follow_line` (line 562 of `_drawtool.py`):
`perstep = length if self._speed in [0,10] else 2 ** (self._speed-1)`. -/
def perstep (speed : ℕ) (len : ℚ) : ℚ :=
  if speed = 0 ∨ speed = 10 then len else (2 : ℚ) ^ (speed - 1)

/-- The loop body of `_follow_line` (lines 563-570 of `_drawtool.py`), for
a single segment from `p` to `q`: `stepcnt = math.ceil(length/perstep)`
iterations, each pushing the sub-segment from `p` to `p + v*factor` with
`factor = min((x+1)*perstep/length, 1)`, carrying the rollback keyword
(`rb0` on step 0, then `1`, since the loop sets `kw['rollback'] = 1` after
each push) and the resolved `block` keyword `blk` shared by every step. -/
def line_steps (p q : Point2) (len : ℚ) (speed : ℕ) (rb0 : ℕ)
    (blk : Option Bool) : List LineStep :=
  (List.range ((Int.ceil (len / perstep speed len)).toNat)).map fun (i : ℕ) =>
    { px := p.x, py := p.y,
      qx := p.x + (q.x - p.x) * min (((i : ℚ) + 1) * perstep speed len / len) 1,
      qy := p.y + (q.y - p.y) * min (((i : ℚ) + 1) * perstep speed len / len) 1,
      rollback := if i = 0 then rb0 else 1,
      block := blk.getD true }

/-- `_DrawTool._follow_line` (lines 541-572 of `_drawtool.py`) for a single
segment from `p` to `q` (`coords` of length 4, the form used by
`Turtle.forward/backward` and `Pen.drawLine`).  `len` embeds `v.length()`;
`rb0` is the `rollback` value of the incoming keyword arguments (`0` when
absent, the default applied by `Window._queue_command`); `kwblock` is the
incoming `block` keyword (`none` when absent).

Mirrored control flow:
* `if not self._speed: kw['block'] = False` (lines 545-546);
* `perstep` and `stepcnt = math.ceil(length/perstep)` (lines 562-563), where
  Python raises `ZeroDivisionError` if `perstep == 0`;
* otherwise the loop of `line_steps` issues one push per step.
The `track` orientation updates and the post-loop `kw['rollback'] = 0`
reset (which only affects later segments of a longer path) are outside the
claims and omitted. -/
def follow_line (p q : Point2) (len : ℚ) (speed : ℕ) (rb0 : ℕ)
    (kwblock : Option Bool) : Except PyErr (List LineStep) :=
  let blk : Option Bool := if speed = 0 then some false else kwblock
  if perstep speed len = 0 then .error .zeroDivisionError
  else .ok (line_steps p q len speed rb0 blk)

/-- One step of the arc animation of `_DrawTool._follow_arc`: the `extent`
keyword attached to the push, its `rollback` count, and its resolved
`block` flag. -/
structure ArcStep where
  extent : ℚ
  rollback : ℕ
  block : Bool
  deriving DecidableEq, Repr

/-- The loop body of `_follow_arc` (lines 621-629 of `_drawtool.py`):
`stepcnt = math.ceil(extnt/perstep)` iterations with per-step extent
`min((x+1)*perstep, extnt)`, each carrying the rollback keyword (`rb0` on
step 0, then `1`) and the caller's `block` keyword. -/
def arc_steps (speed : ℕ) (extnt : ℚ) (rb0 : ℕ) (kwblock : Option Bool) :
    List ArcStep :=
  (List.range ((Int.ceil (extnt / (2 : ℚ) ^ (speed - 1))).toNat)).map fun (i : ℕ) =>
    { extent := min (((i : ℚ) + 1) * (2 : ℚ) ^ (speed - 1)) extnt,
      rollback := if i = 0 then rb0 else 1,
      block := kwblock.getD true }

/-- `_DrawTool._follow_arc` (lines 574-629 of `_drawtool.py`).  `start` and
`extnt` are the `start`/`extent` keywords (defaulted to `0.0` when absent,
lines 618-619); `rb0`/`kwblock` as in `follow_line`.

Line 620 reads `perstep = length if self._speed in [0,10] else
2 ** (self._speed-1)`, but no variable `length` is ever assigned in
`_follow_arc` (nor at module scope), so when `self._speed in [0,10]` is
true Python raises `NameError` before any step is queued; when it is false
the `length` operand is never evaluated and the loop of `arc_steps`
proceeds with `perstep = 2 ** (self._speed-1)`.  The `track` orientation
updates are outside the claims and omitted. -/
def follow_arc (speed : ℕ) (start extnt : ℚ) (rb0 : ℕ)
    (kwblock : Option Bool) : Except PyErr (List ArcStep) :=
  if speed = 0 ∨ speed = 10 then .error .nameError
  else .ok (arc_steps speed extnt rb0 kwblock)

/-- The arc-animation part of `Pen.drawOval` (lines 446-450 of
`pentool.py`): `self._follow_arc(...)` with keyword arguments
`{'style':'arc', ..., 'start':0, 'extent':359, 'block': self._speed > 0}`
and no `rollback` keyword. -/
def drawOval_arc (speed : ℕ) : Except PyErr (List ArcStep) :=
  follow_arc speed 0 359 0 (some (decide (0 < speed)))

/-- The drawing-tool state relevant to `Turtle.forward`
(`_DrawTool.__init__` / `Turtle` in the source): position, speed, and the
pen-down flag (`_isdown`).  The claims only exercise heading `0`, which is
kept implicit (see `turtle_forward0`). -/
structure TurtleState where
  x : ℚ
  y : ℚ
  speed : ℕ
  isdown : Bool
  deriving DecidableEq, Repr

/-- `Turtle.forward` (lines 368-393 of `turtle.py`) specialised to heading
`0`, the case of the claims: `angle = 0`, and Python evaluates
`math.cos(0.0) = 1.0` and `math.sin(0.0) = 0.0` exactly, so the target is
`(x + d, y)`.  With the pen down it calls `_follow_line((x,y,x',y'), fill=...,
width=...)` — no `block` and no `rollback` keyword — where
`v.length() = sqrt(d^2) = |d|` exactly.  The pen-up branch only repositions
the icon and is modelled as queueing no drawing step.  On success the tool
position is the target point (the loop of `_follow_line` and lines 391-392
both set it). -/
def turtle_forward0 (t : TurtleState) (d : ℚ) :
    Except PyErr (List LineStep × TurtleState) :=
  let x : ℚ := t.x + d
  let y : ℚ := t.y
  if t.isdown then
    match follow_line ⟨t.x, t.y⟩ ⟨x, y⟩ |d| t.speed 0 none with
    | .error e => .error e
    | .ok steps => .ok (steps, { t with x := x, y := y })
  else
    .ok ([], { t with x := x, y := y })

/-! ## The command queue and its drain (`window.py`)

`Window._queue_command` (lines 531-597) appends up to four queue entries
under the window lock.  The entries the program ever appends are of exactly
five shapes:
* `(None, self._tk_internal_delete_icon,  [key], {})`,
* `(None, self._tk_internal_delete_history, [key, rollback], {})`,
* `(None, self._tk_internal_draw_icon, [key, icon, pos], {})`  — all three
  from `_queue_command` itself;
* `(None, self._tk_internal_remove_tool, [key], {})` from
  `Window._unregister` and `(None, self._tk_internal_delete_history, ...)`
  from `Window._reset` (both routed through `_queue_command` as its `cmd`
  argument with `key = None`);
* `(key, canvas_function, args, kw)` with `key = tool._tkkey ≠ None` and
  `canvas_function` one of `self._canvas.create_line/arc/oval/rectangle/
  polygon` — from the `Window._draw_*` methods.

`Cmd` encodes those reachable shapes: `helper c` is an entry whose first
component is `None` (executed by the `cmd[0] is None` branch of
`_tk_internal_execute`, line 987), and `keyed k p` is a canvas-primitive
entry tagged with a tool key (executed by the `try` branch, lines 991-997).
The geometric arguments of the canvas call are irrelevant to the claims
and folded into `Prim`. -/

/-- The four `_tk_internal_*` callables that are queued with a `None` key.
Each takes the concrete arguments the source passes.  The key argument of
`delete_icon`/`delete_history`/`draw_icon` is the `key` parameter of the
enclosing `_queue_command` call, which is itself `None` for the pushes
issued by `_unregister`/`_reset`; hence `Option Key`. -/
inductive Callable where
  | delete_icon (k : Option Key)
  | delete_history (k : Option Key) (steps : ℕ)
  | draw_icon (k : Option Key) (icon : Icon)
  | remove_tool (k : Key)
  deriving DecidableEq, Repr

/-- One entry of `Window._commands` (see the section comment above). -/
inductive Cmd where
  | helper (c : Callable)
  | keyed (k : Key) (p : Prim)
  deriving DecidableEq, Repr

/-- A call to `Window._queue_command(key, icon, pos, cmd, args, kw)` as made
by the `Window._draw_*` methods: `key`/`icon` may be `None`; `cmd` is the
canvas primitive (or `None`); `rollback`/`noicon` are the values popped
from `kw` (with their line-565-567 defaults `0`/`False` when absent), and
`block` is the popped `block` value defaulted to `True`.  The icon `pos`
argument does not affect queue structure and is omitted. -/
structure PushReq where
  key : Option Key
  icon : Option Icon
  cmd : Option Prim
  rollback : ℕ
  noicon : Bool
  block : Bool
  deriving DecidableEq, Repr

/-- The queue entries one `_queue_command` call appends, in source order
(lines 580-589 of `window.py`): delete-icon (if `key` is truthy and not
`noicon`), delete-history (if `rollback` is nonzero), the drawing command
(if `cmd` is not `None`; tagged with `key`), then draw-icon (if `icon` is
truthy and not `noicon`).  A `keyed` entry requires `key ≠ None`: the only
pushes carrying a `cmd` with `key = None` are `_unregister`/`_reset`, whose
`cmd` is a helper, not a canvas primitive (see the section comment), so the
`none`-key case of the match is outside `PushReq`.  -/
def queuedOps (r : PushReq) : List Cmd :=
  (match r.key with
   | some _ => if r.noicon = false then [Cmd.helper (Callable.delete_icon r.key)] else []
   | none => []) ++
  (if r.rollback ≠ 0 then [Cmd.helper (Callable.delete_history r.key r.rollback)] else []) ++
  (match r.key, r.cmd with
   | some k, some p => [Cmd.keyed k p]
   | _, _ => []) ++
  (match r.icon with
   | some ic => if r.noicon = false then [Cmd.helper (Callable.draw_icon r.key ic)] else []
   | none => [])

/-- The state touched by a drain of the command queue: the per-tool history
dictionary `Window._history` (lists of canvas item handles), the tool
registry `Window._drawtool` (`key ↦ icon canvas-item handle or None`; the
tool object and image fields of the registry triples are not needed), plus
two ghost fields that are not in the source and are used only to state
progress: `attempted` is the trace of queue entries the drain has executed
(in order), `errors` counts the exceptions that were caught and swallowed
(`traceback.print_exc()` / `pass` in the source). -/
structure CanvasState where
  history : List (Key × List ℕ)
  drawtool : List (Key × Option ℕ)
  attempted : List Cmd
  errors : ℕ
  deriving DecidableEq, Repr

/-- Dictionary lookup, `d[k]` as an `Option` (KeyError when `none`). -/
def alookup {α : Type} (l : List (Key × α)) (k : Key) : Option α :=
  match l with
  | [] => none
  | (k₂, v) :: rest => if k₂ = k then some v else alookup rest k

/-- Dictionary update `d[k] = v` (no-op if the key is absent, which is the
only way the source uses it). -/
def aupdate {α : Type} (l : List (Key × α)) (k : Key) (v : α) : List (Key × α) :=
  match l with
  | [] => []
  | (k₂, w) :: rest => if k₂ = k then (k₂, v) :: rest else (k₂, w) :: aupdate rest k v

/-- Dictionary deletion `del d[k]`. -/
def aerase {α : Type} (l : List (Key × α)) (k : Key) : List (Key × α) :=
  match l with
  | [] => []
  | (k₂, w) :: rest => if k₂ = k then rest else (k₂, w) :: aerase rest k

/-- Running a canvas primitive on the toolkit: returns the new canvas item
handle, or throws (category (c) toolkit failure). -/
def rawPrim (p : Prim) : Except PyErr ℕ :=
  if p.fails then .error .keyError else .ok p.handle

/-- `Window._tk_internal_delete_icon` (lines 1040-1058): look up the
registry entry, and if an icon item is present delete it from the canvas
and null the icon fields of the entry.  The whole body is inside
`try/except traceback.print_exc()`, so a missing key (including the `None`
key of an `_unregister`/`_reset` push) is caught and swallowed; the ghost
`errors` counter records the caught exception. -/
def tk_internal_delete_icon (st : CanvasState) (k : Option Key) : CanvasState :=
  match k with
  | none => { st with errors := st.errors + 1 }
  | some key =>
    match alookup st.drawtool key with
    | none => { st with errors := st.errors + 1 }
    | some refs =>
      match refs with
      | some _ => { st with drawtool := aupdate st.drawtool key none }
      | none => st

/-- `Window._tk_internal_draw_icon` (lines 1060-1076): create the icon
image item on the canvas and store it in the registry entry; inside
`try/except traceback.print_exc()`.  The fresh canvas item handle is
modelled by the icon number itself (both opaque). -/
def tk_internal_draw_icon (st : CanvasState) (k : Option Key) (icon : Icon) : CanvasState :=
  match k with
  | none => { st with errors := st.errors + 1 }
  | some key =>
    match alookup st.drawtool key with
    | none => { st with errors := st.errors + 1 }
    | some _ => { st with drawtool := aupdate st.drawtool key (some icon) }

/-- `Window._tk_internal_delete_history` (lines 1078-1097): pop the last
`steps` history items of the tool, deleting each from the canvas; inside
`try/except pass`.  A missing key raises KeyError before any pop; when
`steps` exceeds the history length the pops empty the list in place and
the next `pop()` raises IndexError, caught by the same silent handler. -/
def tk_internal_delete_history (st : CanvasState) (k : Option Key) (steps : ℕ) : CanvasState :=
  match k with
  | none => { st with errors := st.errors + 1 }
  | some key =>
    match alookup st.history key with
    | none => { st with errors := st.errors + 1 }
    | some hist =>
      if steps ≤ hist.length then
        { st with history := aupdate st.history key (hist.take (hist.length - steps)) }
      else
        { st with history := aupdate st.history key [], errors := st.errors + 1 }

/-- `Window._tk_internal_remove_tool` (lines 1099-1117): delete every
history item of the tool and its icon item from the canvas, then remove the
tool from both dictionaries; inside `try/except traceback.print_exc()`.
A key missing from either dictionary raises KeyError before the two `del`
statements, so the dictionaries are then left unchanged.  (The source also
sets the tool object's `_window` attribute to `None`; the tool side is
represented by the registry membership that `Window._draw_*` checks.) -/
def tk_internal_remove_tool (st : CanvasState) (k : Key) : CanvasState :=
  match alookup st.history k, alookup st.drawtool k with
  | some _, some _ =>
      { st with history := aerase st.history k, drawtool := aerase st.drawtool k }
  | _, _ => { st with errors := st.errors + 1 }

/-- `Window._tk_internal_execute` (lines 977-997).  A command whose first
component is `None` is called directly (the `cmd[0] is None` branch has no
`try` of its own; every callable queued with a `None` key is one of the
four internally-catching helpers, see `Callable`).  A keyed command looks
up the tool's history, runs the canvas primitive and appends the returned
item handle — all inside `try/except traceback.print_exc()`, so a missing
key or a throwing primitive is caught, logged and swallowed there.  The
ghost `attempted` trace records every command this function is given. -/
def tk_internal_execute (st : CanvasState) (c : Cmd) : CanvasState :=
  let st₁ : CanvasState := { st with attempted := st.attempted ++ [c] }
  match c with
  | .helper (Callable.delete_icon k) => tk_internal_delete_icon st₁ k
  | .helper (Callable.delete_history k n) => tk_internal_delete_history st₁ k n
  | .helper (Callable.draw_icon k ic) => tk_internal_draw_icon st₁ k ic
  | .helper (Callable.remove_tool k) => tk_internal_remove_tool st₁ k
  | .keyed k p =>
      match alookup st₁.history k with
      | none => { st₁ with errors := st₁.errors + 1 }
      | some hist =>
        match rawPrim p with
        | .error _ => { st₁ with errors := st₁.errors + 1 }
        | .ok item => { st₁ with history := aupdate st₁.history k (hist ++ [item]) }

/-- The command loop of `Window._tk_update` (lines 922-923):
`for cmnd in self._commands: self._tk_internal_execute(cmnd)`. -/
def executeAll (st : CanvasState) (cmds : List Cmd) : CanvasState :=
  match cmds with
  | [] => st
  | c :: rest => executeAll (tk_internal_execute st c) rest

/-- The appends of `Window._queue_command` for a sequence of pushes: each
push appends its whole `queuedOps` group to `Window._commands` while
holding `self._lock` (lines 580-589), so a sequence of pushes extends the
queue push by push. -/
def pushAll (init : List Cmd) (reqs : List PushReq) : List Cmd :=
  match reqs with
  | [] => init
  | r :: rest => pushAll (init ++ queuedOps r) rest

/-! ## The Window lifecycle (`window.py`) -/

/-- The shared state of one `Window`: the canvas-side dictionaries, the
command queue `_commands`, the adjustment queue `_adjusts` (records
opaque), the `_refreshed` and `_clear` flags, and whether the Tkinter
toplevel still exists (`self._window` is not `None`). -/
structure WinState where
  canvas : CanvasState
  commands : List Cmd
  adjusts : List ℕ
  refreshed : Bool
  clear : Bool
  windowAlive : Bool
  deriving DecidableEq, Repr

/-- The queue side of `Window._queue_command` (lines 565-594): append the
push's operation group under the lock, and if `block` is true call
`self.flush()` — which sets `self._refreshed = True` — and then sleep-poll
until the queue has drained.  (The poll loop itself is timing, not state,
and is not modelled.) -/
def queue_command (w : WinState) (r : PushReq) : WinState :=
  let w₁ : WinState := { w with commands := w.commands ++ queuedOps r }
  if r.block then { w₁ with refreshed := true } else w₁

/-- `Window.flush` (lines 346-357): set `self._refreshed = True` under the
lock and ask the context for a refresh (a no-op marker on the asynchronous
context, whose worker polls on its own). -/
def window_flush (w : WinState) : WinState :=
  { w with refreshed := true }

/-- `Window._draw_line` (lines 655-695): raise `AttachmentError` if the
tool's key is not in `self._drawtool`, otherwise queue the compound push
via `_queue_command` with the canvas `create_line` primitive.  `kwblock`
is the `block` keyword of the call (`none` when absent; `_queue_command`
defaults it to `True`), `rollback` likewise defaulted to `0`.  Coordinate
conversion (`_convert_coords`) does not affect the queue structure and is
omitted.  The other `_draw_*` methods differ only in the primitive. -/
def draw_line (w : WinState) (k : Key) (icon : Option Icon) (p : Prim)
    (rollback : ℕ) (kwblock : Option Bool) : Except PyErr WinState :=
  if (alookup w.canvas.drawtool k).isSome then
    .ok (queue_command w
      { key := some k, icon := icon, cmd := some p,
        rollback := rollback, noicon := false, block := kwblock.getD true })
  else .error .attachmentError

/-- `Window._tk_update` (lines 902-928), the per-tick drain, run with the
lock held:
1. if `self._clear` is set, wipe the canvas, remove every tool, and clear
   both dictionaries and the command queue (lines 912-920);
2. if `self._refreshed` is set, execute every queued command and reset the
   flag (lines 921-924);
3. `self._commands.clear()` — unconditionally (line 925);
4. apply and clear the queued window adjustments (lines 926-928; the
   adjustments only touch toplevel geometry, opaque here). -/
def tk_update (w : WinState) : WinState :=
  let w₁ : WinState :=
    if w.clear then
      { w with canvas := { w.canvas with history := [], drawtool := [] },
               commands := [], clear := false }
    else w
  let w₂ : WinState :=
    if w₁.refreshed then
      { w₁ with canvas := executeAll w₁.canvas w₁.commands, refreshed := false }
    else w₁
  let w₃ : WinState := { w₂ with commands := [] }
  { w₃ with adjusts := [] }

/-- `Window._tk_dispose` (lines 954-973): if the toplevel is already gone
return immediately; otherwise remove every registered tool
(`_tk_internal_remove_tool` for each key), clear both dictionaries and the
command queue, destroy the toplevel and set `self._window = None`. -/
def tk_dispose (w : WinState) : WinState :=
  if w.windowAlive then
    { w with canvas := { w.canvas with history := [], drawtool := [] },
             commands := [], windowAlive := false }
  else w

/-! ## The render context (`_context.py`)

`Window.dispose` (lines 339-344 of `window.py`) delegates to
`_Context.Instance().dealloc(self)`.  There are two context classes:
`_AsyncContext` (Windows/Linux: a worker thread polls `_tk_update` every
millisecond) and `_SyncContext` (MacOS: updates run synchronously on the
main thread). -/

/-- The shared state of `_AsyncContext`: the window registry
`self._window` (keyed by the window's `_tkkey`), the pending deallocation
list `self._delete`, the pending allocation list `self._create`, and
whether the background Tk thread `self._bkgd` is running. -/
structure AsyncCtx where
  window : List (Key × WinState)
  delete : List Key
  create : List (Key × WinState)
  bkgd : Bool
  deriving DecidableEq, Repr

/-- `_AsyncContext.dealloc` (lines 185-197 of `_context.py`): under the
context lock, unconditionally append the window's key to `self._delete`.
(`Window.dispose` is exactly this call.) -/
def async_dealloc (c : AsyncCtx) (k : Key) : AsyncCtx :=
  { c with delete := c.delete ++ [k] }

/-- The deletion loop of `_AsyncContext._tk_update` (lines 234-236):
`for key in self._delete: self._window[key]._tk_dispose();
del self._window[key]`.  The subscript `self._window[key]` raises
`KeyError` when the key is not registered — there is no `try/except`
anywhere on this path, so the exception propagates out of the tick. -/
def processDeletes (reg : List (Key × WinState)) (dels : List Key) :
    Except PyErr (List (Key × WinState)) :=
  match dels with
  | [] => .ok reg
  | k :: rest =>
    match alookup reg k with
    | none => .error .keyError
    | some _ => processDeletes (aerase reg k) rest

/-- `_AsyncContext._tk_update` (lines 230-245), run on every 1 ms poll of
the worker thread, with the context lock held:
1. `self._window[key]._tk_update()` for every registered window;
2. the deletion loop (`processDeletes`), then `self._delete.clear()`;
3. `self._pack(...)` for every pending allocation, registering it;
4. if the registry is now empty and the worker is running, stop it.
An uncaught exception in step 2 aborts the tick; it also skips the
re-registration of the poll callback in `_TK_Thread._poll` (line 65 of
`_context.py`), so the run-loop stops ticking. -/
def async_tk_update (c : AsyncCtx) : Except PyErr AsyncCtx := do
  let c₁ : AsyncCtx :=
    { c with window := c.window.map (fun kv => (kv.1, tk_update kv.2)) }
  let reg ← processDeletes c₁.window c₁.delete
  let c₂ : AsyncCtx := { c₁ with window := reg, delete := [] }
  let c₃ : AsyncCtx := { c₂ with window := c₂.window ++ c₂.create, create := [] }
  if c₃.window.isEmpty ∧ c₃.bkgd then pure { c₃ with bkgd := false } else pure c₃

/-- `_SyncContext.dealloc` (lines 413-428 of `_context.py`): the whole body
— `del self._window[window._tkkey]; window._tk_dispose()` — sits inside
`try/except: pass`, so a second deallocation of the same window is caught
and is a no-op.  Only the registry is modelled (the disposed `WinState` is
dropped with its registry entry). -/
def sync_dealloc (reg : List (Key × WinState)) (k : Key) : List (Key × WinState) :=
  if (alookup reg k).isSome then aerase reg k else reg

/-! ## Concrete scenario states used by the claims -/

/-- Canvas dictionaries of a window with one registered tool (key 1),
empty history, no icon yet. -/
def sampleCanvas : CanvasState :=
  { history := [(1, [])], drawtool := [(1, none)], attempted := [], errors := 0 }

/-- A freshly created window holding one registered tool: empty queues,
`_refreshed = False` (line 313 of `window.py`), toplevel alive. -/
def sampleWin : WinState :=
  { canvas := sampleCanvas, commands := [], adjusts := [], refreshed := false,
    clear := false, windowAlive := true }

/-- A healthy `create_line` canvas primitive (returned handle 7). -/
def samplePrim : Prim := { handle := 7, fails := false }

/-- The push of the speed-0 `forward(50)` scenario as resolved by
`Window._draw_line` + `_queue_command`: tool key 1, visible icon 5, the
`create_line` primitive, no rollback keyword, `block = False` (set by
`_follow_line` line 545-546 because the speed is 0). -/
def speed0Req : PushReq :=
  { key := some 1, icon := some 5, cmd := some samplePrim, rollback := 0,
    noicon := false, block := false }

/-- The window right after the speed-0 push. -/
def speed0Win : WinState := queue_command sampleWin speed0Req

/-- The asynchronous context holding `sampleWin` under key 1, with the
worker thread running. -/
def sampleCtx : AsyncCtx :=
  { window := [(1, sampleWin)], delete := [], create := [], bkgd := true }

/-- The seven animation steps of `forward(100)` at speed 5 from the origin
with heading 0: step length `2^4 = 16`, endpoints 16, 32, …, 96, then the
capped final step at 100. -/
def c7steps : List LineStep :=
  [{ px := 0, py := 0, qx := 16, qy := 0, rollback := 0, block := true },
   { px := 0, py := 0, qx := 32, qy := 0, rollback := 1, block := true },
   { px := 0, py := 0, qx := 48, qy := 0, rollback := 1, block := true },
   { px := 0, py := 0, qx := 64, qy := 0, rollback := 1, block := true },
   { px := 0, py := 0, qx := 80, qy := 0, rollback := 1, block := true },
   { px := 0, py := 0, qx := 96, qy := 0, rollback := 1, block := true },
   { px := 0, py := 0, qx := 100, qy := 0, rollback := 1, block := true }]

/-! ## Helper lemmas -/

/-- The ceiling of a rational as a negated floor (for `norm_num`, which
evaluates `Int.floor` but not `Int.ceil`). -/
theorem ceil_as_floor (a : ℚ) : ⌈a⌉ = -⌊-a⌋ := by
  rw [Int.floor_neg, neg_neg]

/-- The last element of a mapped range. -/
theorem range_map_getLast? {α : Type} (f : ℕ → α) (n : ℕ) (h : 0 < n) :
    ((List.range n).map f).getLast? = some (f (n - 1)) := by
  obtain ⟨m, rfl⟩ : ∃ m, n = m + 1 := ⟨n - 1, (Nat.succ_pred_eq_of_pos h).symm⟩
  rw [List.range_succ, List.map_append, List.map_cons, List.map_nil,
    List.getLast?_append_cons, Nat.add_sub_cancel]
  rfl

/-- None of the four `_tk_internal_*` helpers touches the ghost trace. -/
theorem tk_internal_delete_icon_attempted (st : CanvasState) (k : Option Key) :
    (tk_internal_delete_icon st k).attempted = st.attempted := by
  rw [tk_internal_delete_icon.eq_def]
  split
  · rfl
  · split
    · rfl
    · split <;> rfl

theorem tk_internal_draw_icon_attempted (st : CanvasState) (k : Option Key) (ic : Icon) :
    (tk_internal_draw_icon st k ic).attempted = st.attempted := by
  rw [tk_internal_draw_icon.eq_def]
  split
  · rfl
  · split <;> rfl

theorem tk_internal_delete_history_attempted (st : CanvasState) (k : Option Key) (n : ℕ) :
    (tk_internal_delete_history st k n).attempted = st.attempted := by
  rw [tk_internal_delete_history.eq_def]
  split
  · rfl
  · split
    · rfl
    · split <;> rfl

theorem tk_internal_remove_tool_attempted (st : CanvasState) (k : Key) :
    (tk_internal_remove_tool st k).attempted = st.attempted := by
  rw [tk_internal_remove_tool.eq_def]
  split <;> rfl

/-- The final animation step of a line with positive length and positive
per-step length ends exactly at the target point `q`: the loop caps the
last factor `min(stepcnt*perstep/length, 1)` at `1` because
`stepcnt = ceil(length/perstep)` makes `stepcnt*perstep ≥ length`. -/
theorem line_steps_getLast (p q : Point2) (len : ℚ) (speed : ℕ) (rb0 : ℕ)
    (blk : Option Bool) (hlen : 0 < len) (hps : 0 < perstep speed len) :
    ∃ last, (line_steps p q len speed rb0 blk).getLast? = some last ∧
      last.qx = q.x ∧ last.qy = q.y := by
  have hceil : 0 < Int.ceil (len / perstep speed len) :=
    Int.ceil_pos.mpr (div_pos hlen hps)
  have hn0 : 0 < (Int.ceil (len / perstep speed len)).toNat := by omega
  rw [line_steps, range_map_getLast? _ _ hn0]
  set ps := perstep speed len with hpsdef
  set n := (Int.ceil (len / ps)).toNat with hndef
  have hcast : (n : ℚ) = ((Int.ceil (len / ps) : ℤ) : ℚ) := by
    rw [hndef]
    exact_mod_cast Int.toNat_of_nonneg hceil.le
  have hle : len / ps ≤ (n : ℚ) := by
    rw [hcast]
    exact Int.le_ceil _
  have hlenle : len ≤ (n : ℚ) * ps := by
    have h := (div_le_iff₀ hps).mp hle
    linarith
  have hc1 : ((n - 1 : ℕ) : ℚ) + 1 = (n : ℚ) := by
    have h1n : (1 : ℕ) ≤ n := hn0
    push_cast [Nat.cast_sub h1n]
    ring
  have hfac : min ((((n - 1 : ℕ) : ℚ) + 1) * ps / len) 1 = 1 := by
    rw [hc1]
    exact min_eq_right ((one_le_div hlen).mpr hlenle)
  exact ⟨_, rfl, by dsimp only; rw [hfac]; ring, by dsimp only; rw [hfac]; ring⟩

/-- `_tk_internal_execute` records exactly the command it was given in the
ghost trace, whatever else it does. -/
theorem tk_internal_execute_attempted (st : CanvasState) (c : Cmd) :
    (tk_internal_execute st c).attempted = st.attempted ++ [c] := by
  rcases c with ⟨cl⟩ | ⟨k, p⟩
  · rcases cl with k | ⟨k, n⟩ | ⟨k, ic⟩ | k
    · rw [tk_internal_execute, tk_internal_delete_icon_attempted]
    · rw [tk_internal_execute, tk_internal_delete_history_attempted]
    · rw [tk_internal_execute, tk_internal_draw_icon_attempted]
    · rw [tk_internal_execute, tk_internal_remove_tool_attempted]
  · rw [tk_internal_execute]
    dsimp only
    rcases alookup st.history k with _ | hist
    · rfl
    · rcases rawPrim p with e | item <;> rfl

/-- The drain loop visits every queued command, in order. -/
theorem executeAll_attempted (cmds : List Cmd) (st : CanvasState) :
    (executeAll st cmds).attempted = st.attempted ++ cmds := by
  induction cmds generalizing st with
  | nil => simp [executeAll]
  | cons c rest ih =>
      rw [executeAll, ih, tk_internal_execute_attempted, List.append_assoc]
      rfl

/-- The queue built by a sequence of pushes is the concatenation of the
pushes' operation groups, in push order. -/
theorem pushAll_flatten (reqs : List PushReq) (init : List Cmd) :
    pushAll init reqs = init ++ (reqs.map queuedOps).flatten := by
  induction reqs generalizing init with
  | nil => simp [pushAll]
  | cons r rest ih =>
      rw [pushAll, ih, List.map_cons, List.flatten_cons, List.append_assoc]

/-! ## The claims -/

/-- C1: a drawing push (`Window._draw_line` and the analogous `_draw_*`
methods) issued through a tool whose window has been disposed (its
teardown `_tk_dispose` having emptied the tool registry) raises
`AttachmentError` synchronously; a push issued while the tool is still
registered (in particular, before `dispose()`) never raises it. -/
theorem spec_c1 (w : WinState) (k : Key) (icon : Option Icon) (p : Prim)
    (rb : ℕ) (kb : Option Bool) (halive : w.windowAlive = true) :
    draw_line (tk_dispose w) k icon p rb kb = .error .attachmentError ∧
    ((alookup w.canvas.drawtool k).isSome = true →
      ∃ w₂, draw_line w k icon p rb kb = .ok w₂) := by
  constructor
  · rw [tk_dispose, if_pos halive, draw_line]
    simp [alookup]
  · intro h
    rw [draw_line, if_pos h]
    exact ⟨_, rfl⟩

/-- Witness for C1: a live window with one registered tool. -/
theorem spec_c1_witness :
    draw_line
        (tk_dispose
          { canvas := { history := [(1, [])], drawtool := [(1, none)],
                        attempted := [], errors := 0 },
            commands := [], adjusts := [], refreshed := false, clear := false,
            windowAlive := true })
        1 (some 5) ⟨7, false⟩ 0 none = .error .attachmentError ∧
    ((alookup ([(1, none)] : List (Key × Option ℕ)) 1).isSome = true →
      ∃ w₂, draw_line
        { canvas := { history := [(1, [])], drawtool := [(1, none)],
                      attempted := [], errors := 0 },
          commands := [], adjusts := [], refreshed := false, clear := false,
          windowAlive := true }
        1 (some 5) ⟨7, false⟩ 0 none = .ok w₂) :=
  spec_c1 _ 1 (some 5) ⟨7, false⟩ 0 none rfl

/-- C9: for speed 0 or speed 10, `_DrawTool._follow_arc` evaluates the
unassigned local variable `length` (line 620 of `_drawtool.py`) and raises
`NameError` before queueing any arc step; `Pen.drawOval` always animates a
359-degree arc through `_follow_arc`, so at those speeds it hits the same
`NameError`. -/
theorem spec_c9 (speed : ℕ) (start extnt : ℚ) (rb0 : ℕ) (kb : Option Bool)
    (h : speed = 0 ∨ speed = 10) :
    follow_arc speed start extnt rb0 kb = .error .nameError ∧
    drawOval_arc speed = .error .nameError := by
  have h1 : ∀ (s e : ℚ) (r : ℕ) (b : Option Bool),
      follow_arc speed s e r b = .error .nameError := by
    intro s e r b
    rw [follow_arc, if_pos h]
  exact ⟨h1 start extnt rb0 kb, h1 0 359 0 _⟩

/-- Witness for C9, at both speed 0 and speed 10. -/
theorem spec_c9_witness :
    (follow_arc 0 0 359 0 (some false) = .error .nameError ∧
      drawOval_arc 0 = .error .nameError) ∧
    (follow_arc 10 45 180 0 none = .error .nameError ∧
      drawOval_arc 10 = .error .nameError) :=
  ⟨spec_c9 0 0 359 0 (some false) (Or.inl rfl),
   spec_c9 10 45 180 0 none (Or.inr rfl)⟩

/-- C10: a zero-length move with drawing enabled at speed 0 or speed 10
sets `perstep = length = 0`, so `math.ceil(length/perstep)` raises
`ZeroDivisionError` (line 563 of `_drawtool.py`) instead of performing a
no-op move; in particular `Turtle.forward(0)` with the pen down does. -/
theorem spec_c10 (p : Point2) (rb0 : ℕ) (kb : Option Bool) (speed : ℕ)
    (t : TurtleState) (h : speed = 0 ∨ speed = 10) (ht : t.speed = speed)
    (hd : t.isdown = true) :
    follow_line p p 0 speed rb0 kb = .error .zeroDivisionError ∧
    turtle_forward0 t 0 = .error .zeroDivisionError := by
  have hps : perstep speed 0 = 0 := by rw [perstep, if_pos h]
  have h1 : ∀ (a b : Point2) (r : ℕ) (bl : Option Bool),
      follow_line a b 0 speed r bl = .error .zeroDivisionError := by
    intro a b r bl
    rw [follow_line]
    simp [hps]
  refine ⟨h1 p p rb0 kb, ?_⟩
  rw [turtle_forward0]
  simp [hd, abs_zero, ht, h1]

/-- C5: in line and arc animation started with no incoming `rollback`
keyword (as every caller does), the rollback count attached to animation
step `i` is `0` for the first step and `1` for every later step. -/
theorem spec_c5 (p q : Point2) (len : ℚ) (speed : ℕ) (kb : Option Bool)
    (start extnt : ℚ) (i : ℕ) :
    (∀ steps, follow_line p q len speed 0 kb = .ok steps →
      ∀ h : i < steps.length,
        (steps.get ⟨i, h⟩).rollback = if i = 0 then 0 else 1) ∧
    (∀ asteps, follow_arc speed start extnt 0 kb = .ok asteps →
      ∀ h : i < asteps.length,
        (asteps.get ⟨i, h⟩).rollback = if i = 0 then 0 else 1) := by
  constructor
  · intro steps hok h
    rw [follow_line] at hok
    split at hok
    · cases hok
    · cases hok
      simp [line_steps, List.get_eq_getElem, List.getElem_map, List.getElem_range]
  · intro asteps hok h
    rw [follow_arc] at hok
    split at hok
    · cases hok
    · cases hok
      simp [arc_steps, List.get_eq_getElem, List.getElem_map, List.getElem_range]

/-- Witness for C5: a two-step line animation (speed 2, length 4) and a
two-step arc animation (speed 2, extent 4), checked at step 1. -/
theorem spec_c5_witness :
    (∀ steps, follow_line ⟨0, 0⟩ ⟨4, 0⟩ 4 2 0 none = .ok steps →
      ∀ h : 1 < steps.length,
        (steps.get ⟨1, h⟩).rollback = if 1 = 0 then 0 else 1) ∧
    (∀ asteps, follow_arc 2 0 4 0 none = .ok asteps →
      ∀ h : 1 < asteps.length,
        (asteps.get ⟨1, h⟩).rollback = if 1 = 0 then 0 else 1) :=
  spec_c5 ⟨0, 0⟩ ⟨4, 0⟩ 4 2 none 0 4 1

/-- C8: during a drain tick every queued operation is executed with
operation-local fault isolation.  First conjunct: whatever the queue holds
(including throwing primitives and dangling keys), the drain loop of
`_tk_update` visits every queued operation in order and returns normally.
Second conjunct: a keyed drawing primitive that throws is caught and
logged by the `try/except` of `_tk_internal_execute` — the state records
one more swallowed error and is otherwise unchanged — so the tick
continues with the next operation. -/
theorem spec_c8 (st : CanvasState) (cmds : List Cmd) (k : Key) (p : Prim)
    (hp : p.fails = true) :
    (executeAll st cmds).attempted = st.attempted ++ cmds ∧
    (∀ st₂ : CanvasState,
      tk_internal_execute st₂ (Cmd.keyed k p) =
        { st₂ with attempted := st₂.attempted ++ [Cmd.keyed k p],
                   errors := st₂.errors + 1 }) := by
  refine ⟨executeAll_attempted cmds st, ?_⟩
  intro st₂
  rw [tk_internal_execute]
  have hraw : rawPrim p = .error .keyError := by rw [rawPrim, if_pos hp]
  dsimp only
  rcases halk : alookup st₂.history k with _ | hist
  · simp [halk]
  · simp [halk, hraw]

/-- Witness for C8: a queue containing a throwing primitive, a dangling
delete-history and a healthy primitive — all three are attempted, and the
throwing one is logged in place. -/
theorem spec_c8_witness :
    ((executeAll
        { history := [(1, [])], drawtool := [(1, none)], attempted := [], errors := 0 }
        [Cmd.keyed 1 ⟨9, true⟩, Cmd.helper (Callable.delete_history (some 2) 1),
         Cmd.keyed 1 ⟨3, false⟩]).attempted =
      [] ++ [Cmd.keyed 1 ⟨9, true⟩, Cmd.helper (Callable.delete_history (some 2) 1),
             Cmd.keyed 1 ⟨3, false⟩]) ∧
    (∀ st₂ : CanvasState,
      tk_internal_execute st₂ (Cmd.keyed 1 ⟨9, true⟩) =
        { st₂ with attempted := st₂.attempted ++ [Cmd.keyed 1 ⟨9, true⟩],
                   errors := st₂.errors + 1 }) :=
  spec_c8 { history := [(1, [])], drawtool := [(1, none)], attempted := [], errors := 0 }
    [Cmd.keyed 1 ⟨9, true⟩, Cmd.helper (Callable.delete_history (some 2) 1),
     Cmd.keyed 1 ⟨3, false⟩] 1 ⟨9, true⟩ rfl

/-- C4: every push appends its sub-operations to the command queue as one
group, in the fixed order erase-old-icon, history-rollback,
draw-primitive, draw-new-icon (third conjunct, for a full drawing push);
the queue built by a sequence of pushes is their concatenation in push
(FIFO) order (first conjunct), each push's group occurring contiguously —
never interleaved with another push's (second conjunct); and the drain
executes the queue in exactly that order (fourth conjunct). -/
theorem spec_c4 (reqs : List PushReq) (r : PushReq) (st : CanvasState)
    (hr : r ∈ reqs) :
    pushAll [] reqs = (reqs.map queuedOps).flatten ∧
    List.IsInfix (queuedOps r) (pushAll [] reqs) ∧
    (∀ (k : Key) (pr : Prim) (ic : Icon),
      r.key = some k → r.cmd = some pr → r.icon = some ic →
      r.noicon = false → r.rollback ≠ 0 →
      queuedOps r = [Cmd.helper (Callable.delete_icon (some k)),
                     Cmd.helper (Callable.delete_history (some k) r.rollback),
                     Cmd.keyed k pr,
                     Cmd.helper (Callable.draw_icon (some k) ic)]) ∧
    (executeAll st (pushAll [] reqs)).attempted =
      st.attempted ++ pushAll [] reqs := by
  refine ⟨by rw [pushAll_flatten]; rfl, ?_, ?_, executeAll_attempted _ st⟩
  · obtain ⟨l₁, l₂, rfl⟩ := List.append_of_mem hr
    rw [pushAll_flatten]
    exact ⟨(l₁.map queuedOps).flatten, (l₂.map queuedOps).flatten, by simp⟩
  · intro k pr ic hk hc hic hni hrb
    rw [queuedOps, hk, hc, hic, hni, if_pos rfl, if_pos hrb]
    rfl

/-- Witness for C4: two full drawing pushes from different tools; the
second push's group sits contiguously after the first. -/
theorem spec_c4_witness :
    (pushAll []
        [⟨some 1, some 5, some ⟨7, false⟩, 0, false, true⟩,
         ⟨some 2, some 6, some ⟨8, false⟩, 1, false, true⟩] =
      (([⟨some 1, some 5, some ⟨7, false⟩, 0, false, true⟩,
         ⟨some 2, some 6, some ⟨8, false⟩, 1, false, true⟩] : List PushReq).map
          queuedOps).flatten) ∧
    List.IsInfix (queuedOps ⟨some 2, some 6, some ⟨8, false⟩, 1, false, true⟩)
      (pushAll []
        [⟨some 1, some 5, some ⟨7, false⟩, 0, false, true⟩,
         ⟨some 2, some 6, some ⟨8, false⟩, 1, false, true⟩]) ∧
    (∀ (k : Key) (pr : Prim) (ic : Icon),
      (⟨some 2, some 6, some ⟨8, false⟩, 1, false, true⟩ : PushReq).key = some k →
      (⟨some 2, some 6, some ⟨8, false⟩, 1, false, true⟩ : PushReq).cmd = some pr →
      (⟨some 2, some 6, some ⟨8, false⟩, 1, false, true⟩ : PushReq).icon = some ic →
      (⟨some 2, some 6, some ⟨8, false⟩, 1, false, true⟩ : PushReq).noicon = false →
      (⟨some 2, some 6, some ⟨8, false⟩, 1, false, true⟩ : PushReq).rollback ≠ 0 →
      queuedOps ⟨some 2, some 6, some ⟨8, false⟩, 1, false, true⟩ =
        [Cmd.helper (Callable.delete_icon (some k)),
         Cmd.helper (Callable.delete_history (some k)
           (⟨some 2, some 6, some ⟨8, false⟩, 1, false, true⟩ : PushReq).rollback),
         Cmd.keyed k pr,
         Cmd.helper (Callable.draw_icon (some k) ic)]) ∧
    (executeAll
        { history := [(1, []), (2, [])], drawtool := [(1, none), (2, none)],
          attempted := [], errors := 0 }
        (pushAll []
          [⟨some 1, some 5, some ⟨7, false⟩, 0, false, true⟩,
           ⟨some 2, some 6, some ⟨8, false⟩, 1, false, true⟩])).attempted =
      [] ++ pushAll []
          [⟨some 1, some 5, some ⟨7, false⟩, 0, false, true⟩,
           ⟨some 2, some 6, some ⟨8, false⟩, 1, false, true⟩] :=
  spec_c4
    [⟨some 1, some 5, some ⟨7, false⟩, 0, false, true⟩,
     ⟨some 2, some 6, some ⟨8, false⟩, 1, false, true⟩]
    ⟨some 2, some 6, some ⟨8, false⟩, 1, false, true⟩
    { history := [(1, []), (2, [])], drawtool := [(1, none), (2, none)],
      attempted := [], errors := 0 }
    (List.mem_cons_of_mem _ (List.mem_singleton.mpr rfl))

/-- Witness for C10, at speed 0 and at speed 10. -/
theorem spec_c10_witness :
    (follow_line ⟨1, 2⟩ ⟨1, 2⟩ 0 0 0 none = .error .zeroDivisionError ∧
      turtle_forward0 ⟨1, 2, 0, true⟩ 0 = .error .zeroDivisionError) ∧
    (follow_line ⟨3, 4⟩ ⟨3, 4⟩ 0 10 0 (some true) = .error .zeroDivisionError ∧
      turtle_forward0 ⟨3, 4, 10, true⟩ 0 = .error .zeroDivisionError) :=
  ⟨spec_c10 ⟨1, 2⟩ 0 none 0 ⟨1, 2, 0, true⟩ (Or.inl rfl) rfl rfl,
   spec_c10 ⟨3, 4⟩ 0 (some true) 10 ⟨3, 4, 10, true⟩ (Or.inr rfl) rfl rfl⟩

/-- C2 (amended): for every segment of positive length and speed in
`[1,10]`, the line animation issues `ceil(length / 2^(speed-1))` queued
steps when `speed ≤ 9`; at speed 10 the per-step length is the whole
segment length, so exactly one step is queued; in both cases the endpoint
of the final step equals the target point `q` exactly. -/
theorem spec_c2_amended (p q : Point2) (len : ℚ) (speed : ℕ) (kb : Option Bool)
    (hlen : 0 < len) (hval : len ^ 2 = (q.x - p.x) ^ 2 + (q.y - p.y) ^ 2)
    (h1 : 1 ≤ speed) (h2 : speed ≤ 10) :
    ∃ steps, follow_line p q len speed 0 kb = .ok steps ∧
      (speed ≤ 9 → steps.length = (Int.ceil (len / 2 ^ (speed - 1))).toNat) ∧
      (speed = 10 → steps.length = 1) ∧
      ∃ last, steps.getLast? = some last ∧ last.qx = q.x ∧ last.qy = q.y := by
  have hps : 0 < perstep speed len := by
    rw [perstep]
    split
    · exact hlen
    · positivity
  refine ⟨line_steps p q len speed 0 (if speed = 0 then some false else kb),
    ?_, ?_, ?_, line_steps_getLast p q len speed 0 _ hlen hps⟩
  · rw [follow_line]
    simp only [if_neg (ne_of_gt hps)]
  · intro h9
    have hp : perstep speed len = 2 ^ (speed - 1) := by
      rw [perstep, if_neg]
      push_neg
      constructor <;> omega
    rw [line_steps, List.length_map, List.length_range, hp]
  · rintro rfl
    have hp : perstep 10 len = len := by
      rw [perstep, if_pos (Or.inr rfl)]
    rw [line_steps, List.length_map, List.length_range, hp,
      div_self (ne_of_gt hlen), Int.ceil_one]
    rfl

/-- Witness for C2 (amended): the 3-4-5 segment at speed 3 (per-step
length 4): `ceil(5/4) = 2` steps, the last ending exactly at `(3,4)`. -/
theorem spec_c2_amended_witness :
    ∃ steps, follow_line ⟨0, 0⟩ ⟨3, 4⟩ 5 3 0 none = .ok steps ∧
      ((3 : ℕ) ≤ 9 → steps.length = (Int.ceil ((5 : ℚ) / 2 ^ (3 - 1))).toNat) ∧
      ((3 : ℕ) = 10 → steps.length = 1) ∧
      ∃ last, steps.getLast? = some last ∧ last.qx = (3 : ℚ) ∧ last.qy = (4 : ℚ) :=
  spec_c2_amended ⟨0, 0⟩ ⟨3, 4⟩ 5 3 none (by norm_num) (by norm_num)
    (by norm_num) (by norm_num)

/-- C2 (counterexample): the claim's formula `ceil(length / 2^(speed-1))`
fails at speed 10.  The segment from the origin to `(600, 0)` has length
600 > 0 and speed 10 lies in `[1,10]`, yet the code queues exactly one
step (because `perstep = length` at speed 10, line 562 of `_drawtool.py`)
while the claimed formula demands `ceil(600/512) = 2`. -/
theorem spec_c2_counterexample :
    (0 : ℚ) < 600 ∧
    (600 : ℚ) ^ 2 = ((600 : ℚ) - 0) ^ 2 + ((0 : ℚ) - 0) ^ 2 ∧
    (1 ≤ 10 ∧ (10 : ℕ) ≤ 10) ∧
    follow_line ⟨0, 0⟩ ⟨600, 0⟩ 600 10 0 none =
      .ok [{ px := 0, py := 0, qx := 600, qy := 0, rollback := 0, block := true }] ∧
    (Int.ceil ((600 : ℚ) / 2 ^ (10 - 1))).toNat = 2 ∧
    ([{ px := 0, py := 0, qx := 600, qy := 0, rollback := 0, block := true }] :
      List LineStep).length ≠ 2 := by
  refine ⟨by norm_num, by norm_num, ⟨by norm_num, by norm_num⟩, ?_, ?_, by norm_num⟩
  · have hp : perstep 10 600 = 600 := by rw [perstep, if_pos (Or.inr rfl)]
    have hceil : Int.ceil ((600 : ℚ) / 600) = 1 := by
      rw [div_self (by norm_num : (600 : ℚ) ≠ 0), Int.ceil_one]
    rw [follow_line]
    simp only [hp, if_neg (by norm_num : (600 : ℚ) ≠ 0)]
    rw [line_steps]
    simp only [hp, hceil]
    have ht : ((1 : ℤ)).toNat = 1 := rfl
    rw [ht]
    simp only [List.range_succ, List.range_zero, List.map_append, List.map_cons,
      List.map_nil, List.nil_append]
    norm_num [LineStep.mk.injEq]
  · have hceil : Int.ceil ((600 : ℚ) / 2 ^ (10 - 1)) = 2 := by
      rw [ceil_as_floor]
      norm_num
    rw [hceil]
    rfl

/-- C7: a turtle at the origin with heading 0 and speed 5 moving
`forward(100)` subdivides the segment into steps of length `2^4 = 16`,
issues exactly `ceil(100/16) = 7` queued pushes — each with the blocking
flag resolved from the caller's preference (`forward` passes no `block`
keyword, so `_queue_command` defaults every push, the last included, to
blocking) — and ends with the tool at exactly `(100, 0)`. -/
theorem spec_c7 :
    perstep 5 100 = 16 ∧
    turtle_forward0 ⟨0, 0, 5, true⟩ 100 = .ok (c7steps, ⟨100, 0, 5, true⟩) ∧
    c7steps.length = 7 ∧
    (Int.ceil ((100 : ℚ) / 16)).toNat = 7 ∧
    (∀ s ∈ c7steps, s.block = true) ∧
    c7steps.getLast? =
      some { px := 0, py := 0, qx := 100, qy := 0, rollback := 1, block := true } := by
  have hp : perstep 5 100 = 16 := by
    rw [perstep, if_neg (by norm_num)]
    norm_num
  have hceil : Int.ceil ((100 : ℚ) / 16) = 7 := by
    rw [ceil_as_floor]
    norm_num
  refine ⟨hp, ?_, by decide, by rw [hceil]; rfl, by decide, by decide⟩
  rw [turtle_forward0]
  have habs : |(100 : ℚ)| = 100 := by norm_num
  simp only [habs]
  have hfl : follow_line ⟨0, 0⟩ ⟨(0 : ℚ) + 100, 0⟩ 100 5 0 none = .ok c7steps := by
    rw [follow_line]
    simp only [hp, if_neg (by norm_num : (16 : ℚ) ≠ 0)]
    rw [line_steps]
    simp only [hp, hceil]
    have ht : ((7 : ℤ)).toNat = 7 := rfl
    rw [ht]
    simp only [List.range_succ, List.range_zero, List.map_append, List.map_cons,
      List.map_nil, List.nil_append, List.cons_append, List.append_assoc]
    norm_num [c7steps, LineStep.mk.injEq]
  rw [hfl]
  norm_num

/-- C3: at speed 0, `forward(50)` produces exactly one queued push with
`block = False` (no flush, no wait), and nothing is executed before
`flush()` — but the claim's final part fails on the asynchronous context:
`_tk_update` clears `_commands` even when `_refreshed` is false (line 925
of `window.py`), so a worker tick between the push and `flush()` discards
the deferred commands and the post-flush tick draws nothing, although
`flush()`'s own docstring promises the pending drawing is displayed.
Without an intervening tick the flush does display the push (last
conjunct), pinpointing the discard as the failure. -/
theorem spec_c3 :
    turtle_forward0 ⟨0, 0, 0, true⟩ 50 =
      .ok ([{ px := 0, py := 0, qx := 50, qy := 0, rollback := 0, block := false }],
           ⟨50, 0, 0, true⟩) ∧
    draw_line sampleWin 1 (some 5) samplePrim 0 (some false) = .ok speed0Win ∧
    speed0Win.commands =
      [Cmd.helper (Callable.delete_icon (some 1)), Cmd.keyed 1 samplePrim,
       Cmd.helper (Callable.draw_icon (some 1) 5)] ∧
    speed0Win.refreshed = false ∧
    speed0Win.canvas.attempted = [] ∧
    (tk_update speed0Win).canvas.attempted = [] ∧
    (tk_update (window_flush (tk_update speed0Win))).canvas.attempted = [] ∧
    (tk_update (window_flush speed0Win)).canvas.attempted = speed0Win.commands := by
  refine ⟨?_, rfl, by decide, by decide, by decide, by decide, by decide, by decide⟩
  rw [turtle_forward0]
  have habs : |(50 : ℚ)| = 50 := by norm_num
  simp only [habs]
  have hp : perstep 0 50 = 50 := by rw [perstep, if_pos (Or.inl rfl)]
  have hceil : Int.ceil ((50 : ℚ) / 50) = 1 := by
    rw [div_self (by norm_num : (50 : ℚ) ≠ 0), Int.ceil_one]
  have hfl : follow_line ⟨0, 0⟩ ⟨(0 : ℚ) + 50, 0⟩ 50 0 0 none =
      .ok [{ px := 0, py := 0, qx := 50, qy := 0, rollback := 0, block := false }] := by
    rw [follow_line]
    simp only [hp, if_neg (by norm_num : (50 : ℚ) ≠ 0)]
    rw [line_steps]
    simp only [hp, hceil]
    have ht : ((1 : ℤ)).toNat = 1 := rfl
    rw [ht]
    simp only [List.range_succ, List.range_zero, List.map_append, List.map_cons,
      List.map_nil, List.nil_append]
    norm_num [LineStep.mk.injEq]
  rw [hfl]
  norm_num

/-- C6: `Window.dispose()` is not idempotent on the asynchronous context.
A single dispose drains cleanly (first conjunct), but a second dispose —
whether issued before the drain (second conjunct) or after it (third
conjunct) — leaves a stale key in `_delete`, and the next
`_AsyncContext._tk_update` raises `KeyError` on `self._window[key]`
(line 235 of `_context.py`, no `try/except`), aborting the tick and the
poll chain.  The synchronous context wraps its dealloc in `try/except`, so
there a double dispose is a no-op (fourth conjunct) — which is also the
behaviour the claim describes. -/
theorem spec_c6 :
    async_tk_update (async_dealloc sampleCtx 1) =
      .ok { window := [], delete := [], create := [], bkgd := false } ∧
    async_tk_update (async_dealloc (async_dealloc sampleCtx 1) 1) =
      .error .keyError ∧
    async_tk_update
        (async_dealloc { window := [], delete := [], create := [], bkgd := false } 1) =
      .error .keyError ∧
    sync_dealloc (sync_dealloc [(1, sampleWin)] 1) 1 =
      sync_dealloc [(1, sampleWin)] 1 := by
  refine ⟨?_, ?_, ?_, by decide⟩ <;> rfl

end IntrocsTurtle
